import Mathlib

/-!
# Verification of the GraphQLGateway resilience layer

Shallow embedding of the circuit-breaker subsystem of the GraphQLGateway
repository:

* `CircuitBreaker` (src/utils/circuitBreaker.ts): the `CircuitState` enum,
  the mutable breaker state, and the `execute` / `onSuccess` / `onFailure` /
  `shouldTrip` / `trip` / `shouldAttemptReset` / `reset` / `getStats` logic.
* `CircuitBreakerDataSource` (src/utils/...DataSource): `process`,
  `isValidGraphQLResponse`, `isInfrastructureFailure`, `getFallbackResponse`.
* `CircuitBreakerManager` (src/managers/circuitBreakerManager.ts):
  `getAllStats` / `getHealthStatus`.

Timestamps are modelled as natural numbers (milliseconds); the single
`Date.now()` of an `execute` call is passed in as `now`.  The wrapped
operation is modelled by its outcome (`Except`), and the optional fallback
by an optional function of the breaker state and time at the moment the
fallback runs (mirroring that `getFallbackResponse` reads `getStats()` and
`Date.now()` when it is invoked).
-/

/-- The `CircuitState` enum of circuitBreaker.ts. -/
inductive CircuitState where
  | CLOSED
  | OPEN
  | HALF_OPEN
deriving DecidableEq, Repr

/-- The `CircuitBreakerOptions` configuration interface. -/
structure CircuitBreakerOptions where
  failureThreshold : Nat
  recoveryTimeout : Nat
  monitoringPeriod : Nat
  halfOpenMaxCalls : Nat
  minimumCallsRequired : Nat
deriving DecidableEq, Repr

/-- The mutable fields of the `CircuitBreaker` class: `state`, `failures`,
`successes`, `totalCalls`, `lastFailureTime`, `nextAttemptTime`,
`halfOpenCalls`. -/
structure BreakerState where
  state : CircuitState
  failures : Nat
  successes : Nat
  totalCalls : Nat
  lastFailureTime : Option Nat
  nextAttemptTime : Option Nat
  halfOpenCalls : Nat
deriving DecidableEq, Repr

/-- The field initialisers of the `CircuitBreaker` class: a freshly
constructed breaker. -/
def initialBreaker : BreakerState :=
  { state := .CLOSED
    failures := 0
    successes := 0
    totalCalls := 0
    lastFailureTime := none
    nextAttemptTime := none
    halfOpenCalls := 0 }

/-- `shouldTrip()`: `totalCalls >= minimumCallsRequired && failures >=
failureThreshold`. -/
def shouldTrip (cfg : CircuitBreakerOptions) (s : BreakerState) : Bool :=
  decide (cfg.minimumCallsRequired ≤ s.totalCalls) &&
    decide (cfg.failureThreshold ≤ s.failures)

/-- `trip()`: set `state = OPEN` and `nextAttemptTime = Date.now() +
recoveryTimeout`. -/
def trip (cfg : CircuitBreakerOptions) (s : BreakerState) (now : Nat) :
    BreakerState :=
  { s with state := .OPEN, nextAttemptTime := some (now + cfg.recoveryTimeout) }

/-- `reset()`: back to `CLOSED`, zero `failures`, `successes` and
`halfOpenCalls`, clear both timestamps; `totalCalls` is left untouched. -/
def reset (s : BreakerState) : BreakerState :=
  { s with
    state := .CLOSED
    failures := 0
    successes := 0
    halfOpenCalls := 0
    lastFailureTime := none
    nextAttemptTime := none }

/-- `shouldAttemptReset()`: `nextAttemptTime ? new Date() >= nextAttemptTime
: false`. -/
def shouldAttemptReset (s : BreakerState) (now : Nat) : Bool :=
  match s.nextAttemptTime with
  | some t => decide (t ≤ now)
  | none => false

/-- `onSuccess()`: increment `successes`; in `HALF_OPEN`, `reset()` once
`halfOpenCalls >= halfOpenMaxCalls`; in `CLOSED`, zero the failure count. -/
def onSuccess (cfg : CircuitBreakerOptions) (s : BreakerState) : BreakerState :=
  let s1 := { s with successes := s.successes + 1 }
  if s1.state = .HALF_OPEN then
    if cfg.halfOpenMaxCalls ≤ s1.halfOpenCalls then reset s1 else s1
  else if s1.state = .CLOSED then { s1 with failures := 0 }
  else s1

/-- `onFailure()`: increment `failures`, record `lastFailureTime`; in
`HALF_OPEN` trip unconditionally; in `CLOSED` trip iff `shouldTrip()`. -/
def onFailure (cfg : CircuitBreakerOptions) (s : BreakerState) (now : Nat) :
    BreakerState :=
  let s1 := { s with failures := s.failures + 1, lastFailureTime := some now }
  if s1.state = .HALF_OPEN then trip cfg s1 now
  else if s1.state = .CLOSED then
    if shouldTrip cfg s1 then trip cfg s1 now else s1
  else s1

/-- How an `execute` call finished: the operation's resolved value, the
operation's rethrown error, or one of the two errors `execute` itself throws
when no fallback is provided. -/
inductive ExecOutcome (E V : Type) where
  | ok (v : V)
  | opError (e : E)
  | breakerOpen
  | halfOpenLimit
deriving DecidableEq, Repr

/-- The observable effect of one `execute` call: the post-state, the
returned/thrown outcome, and whether the operation and the fallback were
invoked. -/
structure ExecResult (E V : Type) where
  state : BreakerState
  result : ExecOutcome E V
  opInvoked : Bool
  fallbackInvoked : Bool
deriving DecidableEq, Repr

/-- The part of `execute` after the OPEN-state block: the HALF_OPEN call
limit check, the pre-execution counter updates, the operation itself, and the
success / failure handling (including the failure-path fallback). -/
def executeFrom {E V : Type} (cfg : CircuitBreakerOptions) (s : BreakerState)
    (now : Nat) (op : Except E V) (fb : Option (BreakerState → Nat → V)) :
    ExecResult E V :=
  if s.state = .HALF_OPEN ∧ cfg.halfOpenMaxCalls ≤ s.halfOpenCalls then
    match fb with
    | some f => ⟨s, .ok (f s now), false, true⟩
    | none => ⟨s, .halfOpenLimit, false, false⟩
  else
    let s1 := { s with
      totalCalls := s.totalCalls + 1
      halfOpenCalls :=
        if s.state = .HALF_OPEN then s.halfOpenCalls + 1 else s.halfOpenCalls }
    match op with
    | .ok v => ⟨onSuccess cfg s1, .ok v, true, false⟩
    | .error e =>
        let s2 := onFailure cfg s1 now
        match fb with
        | some f => ⟨s2, .ok (f s2 now), true, true⟩
        | none => ⟨s2, .opError e, true, false⟩

/-- `CircuitBreaker.execute`: OPEN-state handling (blocked call or OPEN →
HALF_OPEN transition) followed by `executeFrom`. -/
def execute {E V : Type} (cfg : CircuitBreakerOptions) (s : BreakerState)
    (now : Nat) (op : Except E V) (fb : Option (BreakerState → Nat → V)) :
    ExecResult E V :=
  if s.state = .OPEN then
    if shouldAttemptReset s now then
      executeFrom cfg { s with state := .HALF_OPEN, halfOpenCalls := 0 } now op fb
    else
      match fb with
      | some f => ⟨s, .ok (f s now), false, true⟩
      | none => ⟨s, .breakerOpen, false, false⟩
  else executeFrom cfg s now op fb

/-!
## CircuitBreakerDataSource (the protected-call wrapper)

JavaScript values relevant to the wrapper are modelled structurally: a
GraphQL-ish response object records whether its `data` field is defined
(`!== undefined`; `null` counts as defined) and what kind of value its
`errors` field holds; a thrown error records its `code`, its `message` and
the optional `extensions.response` object (HTTP status plus optional body).
-/

/-- The possible shapes of the `errors` field of a response object, as far
as the wrapper's truthiness / `Array.isArray` tests can distinguish them. -/
inductive ErrorsField where
  | absent
  | falsyNonArray
  | truthyNonArray
  | array
deriving DecidableEq, Repr

/-- Truthiness of the `errors` field (`result.errors && ...`). -/
def errorsTruthy : ErrorsField → Bool
  | .absent => false
  | .falsyNonArray => false
  | .truthyNonArray => true
  | .array => true

/-- `Array.isArray(result.errors)`. -/
def errorsIsArray : ErrorsField → Bool
  | .array => true
  | _ => false

/-- A response-shaped object: whether `data !== undefined`, and the shape of
`errors`. -/
structure GqlResponse where
  dataDefined : Bool
  errors : ErrorsField
deriving DecidableEq, Repr

/-- `isValidGraphQLResponse(result)`: `result && (result.data !== undefined
|| (result.errors && Array.isArray(result.errors)))`.  A falsy transport
result (null / undefined / empty body) is modelled as `none`. -/
def isValidGraphQLResponse : Option GqlResponse → Bool
  | none => false
  | some r => r.dataDefined || (errorsTruthy r.errors && errorsIsArray r.errors)

/-- The `extensions.response` object carried by a thrown error: the HTTP
status (absent or an integer; `0` is falsy) and the optional embedded body. -/
structure ErrResponse where
  status : Option Int
  body : Option GqlResponse
deriving DecidableEq, Repr

/-- A thrown error as far as the wrapper inspects it: `error.code`,
`error.message`, and `error.extensions?.response`. -/
structure GatewayError where
  code : Option String
  message : Option String
  response : Option ErrResponse
deriving DecidableEq, Repr

/-- `charsPrefixOf pat s`: `pat` is a prefix of `s` (Boolean, structural). -/
def charsPrefixOf : List Char → List Char → Bool
  | [], _ => true
  | _ :: _, [] => false
  | a :: ps, b :: bs => a = b && charsPrefixOf ps bs

/-- `charsContains pat s`: `pat` occurs as a contiguous substring of `s`. -/
def charsContains (pat : List Char) : List Char → Bool
  | [] => charsPrefixOf pat []
  | c :: rest => charsPrefixOf pat (c :: rest) || charsContains pat rest

/-- `message.toLowerCase()` on the character list of a string. -/
def toLowerChars (s : String) : List Char := s.data.map Char.toLower

/-- `s.includes(pat)` on a lowered character list. -/
def strIncludes (s : List Char) (pat : String) : Bool := charsContains pat.data s

/-- The truthy `error.extensions?.response?.status` used by the classifier's
status branch (`if (error.extensions?.response?.status)`): present and
nonzero. -/
def truthyStatus (e : GatewayError) : Option Int :=
  match e.response with
  | some r =>
      match r.status with
      | some st => if st = 0 then none else some st
      | none => none
  | none => none

/-- `isInfrastructureFailure(error)`: network error codes, then HTTP status
classification (5xx or 408/429/503/504 infrastructure, anything else with a
truthy status not), then message pattern matching, then the fail-safe
default `true`. -/
def isInfrastructureFailure (e : GatewayError) : Bool :=
  if e.code = some ("ECONNREFUSED") ∨ e.code = some ("ENOTFOUND") ∨
      e.code = some ("ETIMEDOUT") ∨ e.code = some ("ECONNRESET") then
    true
  else
    match truthyStatus e with
    | some status =>
        if 500 ≤ status then true
        else if status = 408 ∨ status = 429 ∨ status = 503 ∨ status = 504 then
          true
        else false
    | none =>
        let errorMessage := toLowerChars ((e.message.getD ("")))
        if strIncludes errorMessage ("timeout") ∨
            strIncludes errorMessage ("connection") ∨
            strIncludes errorMessage ("network") ∨
            strIncludes errorMessage ("socket") then
          true
        else true

/-- The `Error('Invalid GraphQL response structure')` thrown when the
transport result fails shape validation. -/
def invalidResponseError : GatewayError :=
  { code := none
    message := some ("Invalid GraphQL response structure")
    response := none }

/-- The embedded body the wrapper extracts from a business-logic error, when
`error.extensions?.response` exists and `response.body && (response.body.data
!== undefined || response.body.errors)` holds. -/
def embeddedBodyOf (e : GatewayError) : Option GqlResponse :=
  match e.response with
  | some resp =>
      match resp.body with
      | some b => if b.dataDefined || errorsTruthy b.errors then some b else none
      | none => none
  | none => none

/-- What the wrapped operation can resolve to, and what the fallback
produces. -/
structure FallbackPayload where
  message : String
  code : String
  circuitBreakerTripped : Bool
  serviceName : String
  retryAfter : ℚ
  timestamp : Nat
deriving DecidableEq, Repr

/-- The value returned by one `process` call: the transport's own (valid)
response, an embedded body extracted from a business-logic error, or the
generated fallback payload. -/
inductive ProcValue where
  | response (r : Option GqlResponse)
  | embeddedBody (b : GqlResponse)
  | fallback (p : FallbackPayload)
deriving DecidableEq, Repr

/-- The behaviour of `super.process(request)` (the real transport call):
either it returns a result object or it throws an error. -/
inductive TransportOutcome where
  | returns (r : Option GqlResponse)
  | throws (e : GatewayError)
deriving DecidableEq, Repr

/-- The catch block of the wrapped operation: infrastructure failures are
rethrown; business-logic errors with a valid embedded body resolve to that
body; everything else is rethrown (fail-safe). -/
def classifyCatch (e : GatewayError) : Except GatewayError ProcValue :=
  if isInfrastructureFailure e then .error e
  else
    match embeddedBodyOf e with
    | some b => .ok (.embeddedBody b)
    | none => .error e

/-- The wrapped operation passed to `circuitBreaker.execute` by `process`: a
valid transport result resolves as-is; an invalid one raises
`invalidResponseError` into the same catch block; a thrown transport error
goes through the catch block directly. -/
def processOperation (t : TransportOutcome) : Except GatewayError ProcValue :=
  match t with
  | .returns r =>
      if isValidGraphQLResponse r then .ok (.response r)
      else classifyCatch invalidResponseError
  | .throws e => classifyCatch e

/-- `circuitStats.nextAttemptTime?.getTime() || Date.now()` (a zero
timestamp is falsy). -/
def nextAttemptOrNow (s : BreakerState) (now : Nat) : Nat :=
  match s.nextAttemptTime with
  | some t => if t = 0 then now else t
  | none => now

/-- `getFallbackResponse(request)`: the GraphQL-shaped fallback payload,
built from the breaker statistics at the moment the fallback runs.
`retryAfter` is `Math.ceil(next - now) / 1000` in seconds (the difference is
an integer, so `Math.ceil` is the identity); no clamping to zero occurs. -/
def getFallbackResponse (serviceName : String) (s : BreakerState) (now : Nat) :
    FallbackPayload :=
  { message := serviceName ++ " service is temporarily unavailable. Please try again later."
    code := "SERVICE_UNAVAILABLE"
    circuitBreakerTripped := true
    serviceName := serviceName
    retryAfter := (((nextAttemptOrNow s now : Int) : ℚ) - ((now : Int) : ℚ)) / 1000
    timestamp := now }

/-- `CircuitBreakerDataSource.process(request)`: run the wrapped operation
through `circuitBreaker.execute`, always supplying
`() => this.getFallbackResponse(request)` as the fallback. -/
def process (serviceName : String) (cfg : CircuitBreakerOptions)
    (s : BreakerState) (now : Nat) (t : TransportOutcome) :
    ExecResult GatewayError ProcValue :=
  execute cfg s now (processOperation t)
    (some (fun st n => .fallback (getFallbackResponse serviceName st n)))

/-!
## CircuitBreakerManager (the registry)

`getHealthStatus` only inspects the `state` field of each `getStats()`
snapshot, comparing it with the string `'OPEN'`; the registry is modelled as
the association list underlying the manager's `Map` (distinct names), each
entry paired with the state string its breaker reports.
-/

/-- The health status object returned by
`CircuitBreakerManager.getHealthStatus`. -/
structure HealthStatus where
  healthy : Bool
  openCircuits : List String
  totalCircuits : Nat
deriving DecidableEq, Repr

/-- `Object.entries(stats).filter(([_, stat]) => stat.state ===
'OPEN').map(([name, _]) => name)`. -/
def openCircuitsOf (stats : List (String × String)) : List String :=
  (stats.filter (fun p => p.2 = "OPEN")).map (fun p => p.1)

/-- `CircuitBreakerManager.getHealthStatus()`: `healthy` iff no entry is
`'OPEN'`, the list of open circuit names, and the registry size. -/
def getHealthStatus (stats : List (String × String)) : HealthStatus :=
  { healthy := decide ((openCircuitsOf stats).length = 0)
    openCircuits := openCircuitsOf stats
    totalCircuits := stats.length }

/-!
## Execution traces

A trace is a list of `execute` calls, each given by its `Date.now()`
timestamp and whether the wrapped operation would succeed; the fallback is
irrelevant to the state evolution.
-/

/-- The breaker state after one `execute` call: at time `c.1`, with an
operation that succeeds iff `c.2`. -/
def stepCall (cfg : CircuitBreakerOptions) (s : BreakerState) (c : Nat × Bool) :
    BreakerState :=
  (execute cfg s c.1 (if c.2 then Except.ok () else Except.error ())
    (none : Option (BreakerState → Nat → Unit))).state

/-- The breaker state reached from a freshly created breaker after a list of
`execute` calls. -/
def runCalls (cfg : CircuitBreakerOptions) (cs : List (Nat × Bool)) :
    BreakerState :=
  cs.foldl (stepCall cfg) initialBreaker

/-!
## Claims
-/

/-- C1: starting from a freshly created breaker, a failing operation while
the state is CLOSED moves the state to OPEN exactly on the call where, after
the failure bookkeeping (`totalCalls` and `failures` each incremented by
one), `totalCalls ≥ minimumCallsRequired` and `failures ≥ failureThreshold`
both hold; on every failing call before that point the state remains
CLOSED. -/
theorem c1_closed_failure_trips_exactly_at_threshold
    (cfg : CircuitBreakerOptions) (cs : List (Nat × Bool)) (now : Nat)
    (hclosed : (runCalls cfg cs).state = .CLOSED) :
    ((runCalls cfg (cs ++ [(now, false)])).state = .OPEN ↔
      cfg.minimumCallsRequired ≤ (runCalls cfg cs).totalCalls + 1 ∧
        cfg.failureThreshold ≤ (runCalls cfg cs).failures + 1) ∧
    ((runCalls cfg (cs ++ [(now, false)])).state = .CLOSED ↔
      ¬(cfg.minimumCallsRequired ≤ (runCalls cfg cs).totalCalls + 1 ∧
        cfg.failureThreshold ≤ (runCalls cfg cs).failures + 1)) := by
  have hrun : runCalls cfg (cs ++ [(now, false)]) =
      stepCall cfg (runCalls cfg cs) (now, false) := by
    simp [runCalls, List.foldl_append]
  set s := runCalls cfg cs with hs
  rw [hrun]
  by_cases hc : cfg.minimumCallsRequired ≤ s.totalCalls + 1 ∧
      cfg.failureThreshold ≤ s.failures + 1
  · simp [stepCall, execute, executeFrom, onFailure, trip, shouldTrip,
      hclosed, hc, hc.1, hc.2]
  · have hc' : ¬(cfg.minimumCallsRequired ≤ s.totalCalls + 1) ∨
        ¬(cfg.failureThreshold ≤ s.failures + 1) := by tauto
    rcases hc' with h1 | h1 <;>
      simp [stepCall, execute, executeFrom, onFailure, trip, shouldTrip,
        hclosed, hc, h1]

/-- Witness for C1 at a concrete input: with thresholds 1/1, a fresh breaker
trips to OPEN on the very first failing call. -/
theorem c1_witness :
    (runCalls ⟨1, 50, 10, 1, 1⟩ ([] ++ [(0, false)])).state = .OPEN :=
  ((c1_closed_failure_trips_exactly_at_threshold ⟨1, 50, 10, 1, 1⟩ [] 0
    (by decide)).1).mpr (by decide)

/-- C6: while the breaker is OPEN and `now < nextAttemptTime`, `execute`
never invokes the operation, leaves the whole breaker state (all counters
and timestamps) unchanged, returns the fallback's result when a fallback is
supplied, and otherwise fails with the breaker-open error. -/
theorem c6_open_within_window_blocks_operation {E V : Type}
    (cfg : CircuitBreakerOptions) (s : BreakerState) (now t : Nat)
    (op : Except E V) (fb : Option (BreakerState → Nat → V))
    (hopen : s.state = .OPEN) (hnext : s.nextAttemptTime = some t)
    (hlt : now < t) :
    (execute cfg s now op fb).opInvoked = false ∧
    (execute cfg s now op fb).state = s ∧
    (∀ f, fb = some f → (execute cfg s now op fb).result = .ok (f s now) ∧
      (execute cfg s now op fb).fallbackInvoked = true) ∧
    (fb = none → (execute cfg s now op fb).result = .breakerOpen) := by
  have hres : shouldAttemptReset s now = false := by
    simp [shouldAttemptReset, hnext]
    omega
  cases fb <;> simp [execute, hopen, hres]

/-- Witness for C6 at a concrete input: an OPEN breaker with
`nextAttemptTime = 10` called at time 5 does not invoke the operation. -/
theorem c6_witness :
    (execute ⟨1, 50, 10, 1, 1⟩ ⟨.OPEN, 1, 0, 3, some 0, some 10, 0⟩ 5
      (Except.ok () : Except Unit Unit)
      (none : Option (BreakerState → Nat → Unit))).opInvoked = false :=
  (c6_open_within_window_blocks_operation ⟨1, 50, 10, 1, 1⟩
    ⟨.OPEN, 1, 0, 3, some 0, some 10, 0⟩ 5 10 (Except.ok () : Except Unit Unit)
    none rfl rfl (by decide)).1

/-- C7: whenever `reset()` runs — i.e. on the HALF_OPEN success with
`halfOpenCalls ≥ halfOpenMaxCalls` — the post-state is CLOSED with
`failures = 0`, `successes = 0`, `halfOpenCalls = 0` and both timestamps
cleared, while `totalCalls` keeps exactly its prior value. -/
theorem c7_reset_clears_all_but_total_calls
    (cfg : CircuitBreakerOptions) (s : BreakerState)
    (hs : s.state = .HALF_OPEN)
    (hcalls : cfg.halfOpenMaxCalls ≤ s.halfOpenCalls) :
    (onSuccess cfg s).state = .CLOSED ∧
    (onSuccess cfg s).failures = 0 ∧
    (onSuccess cfg s).successes = 0 ∧
    (onSuccess cfg s).halfOpenCalls = 0 ∧
    (onSuccess cfg s).lastFailureTime = none ∧
    (onSuccess cfg s).nextAttemptTime = none ∧
    (onSuccess cfg s).totalCalls = s.totalCalls := by
  simp [onSuccess, reset, hs, hcalls]

/-- Witness for C7 at a concrete input: a HALF_OPEN breaker at its test-call
limit resets, keeping `totalCalls = 7`. -/
theorem c7_witness :
    (onSuccess ⟨5, 50, 10, 3, 1⟩ ⟨.HALF_OPEN, 2, 4, 7, some 1, some 2, 3⟩).totalCalls
      = 7 :=
  (c7_reset_clears_all_but_total_calls ⟨5, 50, 10, 3, 1⟩
    ⟨.HALF_OPEN, 2, 4, 7, some 1, some 2, 3⟩ rfl (by decide)).2.2.2.2.2.2

/-- In an association list with pairwise-distinct keys (the `Map` underlying
the registry), two entries with the same name coincide. -/
lemma assoc_eq_of_fst_eq {l : List (String × String)}
    (h : (l.map Prod.fst).Nodup) {p q : String × String}
    (hp : p ∈ l) (hq : q ∈ l) (hfst : p.1 = q.1) : p = q := by
  induction l with
  | nil => cases hp
  | cons a t ih =>
      rw [List.map_cons, List.nodup_cons] at h
      rcases List.mem_cons.mp hp with hpa | hp' <;>
        rcases List.mem_cons.mp hq with hqa | hq'
      · rw [hpa, hqa]
      · exfalso
        apply h.1
        rw [← hpa, hfst]
        exact List.mem_map_of_mem Prod.fst hq'
      · exfalso
        apply h.1
        rw [← hqa, ← hfst]
        exact List.mem_map_of_mem Prod.fst hp'
      · exact ih h.2 hp' hq'

/-- C8: for every registry population (distinct breaker names),
`getHealthStatus().healthy` is false iff some registered breaker reports
exactly the state string `'OPEN'`; a name appears in `openCircuits` iff its
breaker reports `'OPEN'` (so HALF_OPEN or malformed values never appear);
and `totalCircuits` is the number of registered breakers. -/
theorem c8_health_status_characterisation (stats : List (String × String))
    (hnodup : (stats.map Prod.fst).Nodup) :
    ((getHealthStatus stats).healthy = false ↔
      ∃ p ∈ stats, p.2 = "OPEN") ∧
    (∀ name, name ∈ (getHealthStatus stats).openCircuits ↔
      (name, "OPEN") ∈ stats) ∧
    (∀ p ∈ stats, p.2 ≠ "OPEN" →
      p.1 ∉ (getHealthStatus stats).openCircuits) ∧
    (getHealthStatus stats).totalCircuits = stats.length := by
  have hmem : ∀ name, name ∈ (getHealthStatus stats).openCircuits ↔
      (name, "OPEN") ∈ stats := by
    intro name
    simp only [getHealthStatus, openCircuitsOf, List.mem_map, List.mem_filter]
    constructor
    · rintro ⟨⟨n, st⟩, ⟨hmem, hst⟩, rfl⟩
      simp only [decide_eq_true_eq] at hst
      exact hst ▸ hmem
    · intro h
      exact ⟨(name, "OPEN"), ⟨h, by simp⟩, rfl⟩
  refine ⟨?_, hmem, ?_, rfl⟩
  · simp only [getHealthStatus, decide_eq_false_iff_not, ← List.length_pos,
      Nat.pos_iff_ne_zero, not_not, ne_eq]
    constructor
    · intro h
      have : (openCircuitsOf stats) ≠ [] := by
        intro hnil
        simp [hnil] at h
      rcases List.exists_mem_of_ne_nil _ this with ⟨name, hname⟩
      have := (hmem name).mp (by simpa [getHealthStatus] using hname)
      exact ⟨(name, "OPEN"), this, rfl⟩
    · rintro ⟨⟨n, st⟩, hp, rfl⟩
      have : n ∈ openCircuitsOf stats := by
        simpa [getHealthStatus] using (hmem n).mpr hp
      intro hlen
      rw [List.length_eq_zero] at hlen
      simp [hlen] at this
  · intro p hp hne hin
    have hopen : (p.1, "OPEN") ∈ stats := (hmem p.1).mp hin
    have := assoc_eq_of_fst_eq hnodup hp hopen rfl
    exact hne (congrArg Prod.snd this)

/-- Witness for C8 at a concrete input: a registry with one OPEN and one
HALF_OPEN breaker reports two circuits in total. -/
theorem c8_witness :
    (getHealthStatus [("subgraph-a", "OPEN"), ("subgraph-b", "HALF_OPEN")]).totalCircuits
      = [("subgraph-a", "OPEN"), ("subgraph-b", "HALF_OPEN")].length :=
  (c8_health_status_characterisation
    [("subgraph-a", "OPEN"), ("subgraph-b", "HALF_OPEN")] (by decide)).2.2.2

/-- C2 counterexample: with a CLOSED breaker, a failing operation and a
supplied fallback, `execute` does invoke the fallback — contradicting the
claim that the fallback is never invoked while CLOSED and that the call's
result is the operation's own result or its rethrown error. -/
theorem c2_counterexample :
    initialBreaker.state = .CLOSED ∧
    (execute ⟨5, 50, 10, 3, 10⟩ initialBreaker 0
      (Except.error () : Except Unit Unit)
      (some (fun _ _ => ()))).fallbackInvoked = true :=
  ⟨rfl, rfl⟩

/-- C2 amended: for every `execute` call made while the breaker is CLOSED,
or HALF_OPEN below `halfOpenMaxCalls`, the operation is invoked; if the
operation succeeds the fallback is not invoked and the result is the
operation's own result; if it fails, the error is rethrown when no fallback
is supplied, and the fallback is invoked when one is. -/
theorem c2_amended_closed_calls_run_operation {E V : Type}
    (cfg : CircuitBreakerOptions) (s : BreakerState) (now : Nat)
    (op : Except E V) (fb : Option (BreakerState → Nat → V))
    (h : s.state = .CLOSED ∨
      (s.state = .HALF_OPEN ∧ s.halfOpenCalls < cfg.halfOpenMaxCalls)) :
    (execute cfg s now op fb).opInvoked = true ∧
    (∀ v, op = .ok v → (execute cfg s now op fb).result = .ok v ∧
      (execute cfg s now op fb).fallbackInvoked = false) ∧
    (∀ e, op = .error e → fb = none →
      (execute cfg s now op fb).result = .opError e) ∧
    (∀ e f, op = .error e → fb = some f →
      (execute cfg s now op fb).fallbackInvoked = true) := by
  rcases h with hcl | ⟨hho, hlt⟩
  · cases op <;> cases fb <;> simp [execute, executeFrom, hcl]
  · have hnotle : ¬(cfg.halfOpenMaxCalls ≤ s.halfOpenCalls) := by omega
    cases op <;> cases fb <;> simp [execute, executeFrom, hho, hnotle]

/-- Witness for C2 (amended) at a concrete input: a CLOSED breaker invokes a
succeeding operation. -/
theorem c2_amended_witness :
    (execute ⟨5, 50, 10, 3, 10⟩ initialBreaker 0
      (Except.ok () : Except Unit Unit)
      (none : Option (BreakerState → Nat → Unit))).opInvoked = true :=
  (c2_amended_closed_calls_run_operation ⟨5, 50, 10, 3, 10⟩ initialBreaker 0
    (Except.ok () : Except Unit Unit) none (Or.inl rfl)).1

/-- C3 counterexample: a thrown error carrying HTTP status 404 but no
embedded protocol-shaped body is classified as business-logic, yet the
wrapper rethrows it into the breaker's failure path: `failures` is
incremented and the caller receives the fallback, not a normal result built
from the error. -/
theorem c3_counterexample :
    isInfrastructureFailure ⟨none, none, some ⟨some 404, none⟩⟩ = false ∧
    processOperation (.throws ⟨none, none, some ⟨some 404, none⟩⟩) =
      .error ⟨none, none, some ⟨some 404, none⟩⟩ ∧
    (process "svc" ⟨5, 50, 10, 3, 10⟩ initialBreaker 0
      (.throws ⟨none, none, some ⟨some 404, none⟩⟩)).state.failures =
      initialBreaker.failures + 1 :=
  ⟨rfl, rfl, rfl⟩

/-- C3 amended: a business-logic-classified error is returned as a normal
successful result, without incrementing `failures`, exactly when it carries
a valid embedded protocol-shaped (`data`/`errors`) body; a business-logic
error without such a body is rethrown and does count as a breaker
failure. -/
theorem c3_amended_business_error_needs_embedded_body
    (e : GatewayError) (svc : String) (cfg : CircuitBreakerOptions)
    (s : BreakerState) (now : Nat)
    (hbiz : isInfrastructureFailure e = false) (hs : s.state = .CLOSED) :
    (∀ b, embeddedBodyOf e = some b →
      (process svc cfg s now (.throws e)).result = .ok (.embeddedBody b) ∧
      (process svc cfg s now (.throws e)).state.failures = 0) ∧
    (embeddedBodyOf e = none →
      (process svc cfg s now (.throws e)).state.failures = s.failures + 1) := by
  constructor
  · intro b hb
    simp [process, execute, executeFrom, processOperation, classifyCatch,
      hbiz, hb, hs, onSuccess]
  · intro hb
    simp [process, execute, executeFrom, processOperation, classifyCatch,
      hbiz, hb, hs, onFailure]
    split <;> simp [trip]

/-- Witness for C3 (amended) at a concrete input: a 404 error with an
embedded `data` body resolves to that body. -/
theorem c3_amended_witness :
    (process "svc" ⟨5, 50, 10, 3, 10⟩ initialBreaker 0
      (.throws ⟨none, none, some ⟨some 404, some ⟨true, .absent⟩⟩⟩)).result =
      .ok (.embeddedBody ⟨true, .absent⟩) :=
  ((c3_amended_business_error_needs_embedded_body
    ⟨none, none, some ⟨some 404, some ⟨true, .absent⟩⟩⟩ "svc" ⟨5, 50, 10, 3, 10⟩
    initialBreaker 0 rfl rfl).1 ⟨true, .absent⟩ rfl).1

/-- The raw `error.extensions?.response?.status`, used to read the claim's
"an HTTP-like status is present". -/
def rawStatus (e : GatewayError) : Option Int :=
  match e.response with
  | some r => r.status
  | none => none

/-- C4's reference definition, written from the claim's own words: network
codes are infrastructure; with a status present, `status ≥ 500` or `status ∈
{408, 429, 503, 504}` is infrastructure and any other 4xx is not; with no
status, a message containing a connectivity word is infrastructure; any
remaining error is infrastructure by default. -/
def claimedInfrastructureClassification (e : GatewayError) : Bool :=
  if e.code = some ("ECONNREFUSED") ∨ e.code = some ("ENOTFOUND") ∨
      e.code = some ("ETIMEDOUT") ∨ e.code = some ("ECONNRESET") then
    true
  else
    match rawStatus e with
    | some st =>
        if 500 ≤ st ∨ st = 408 ∨ st = 429 ∨ st = 503 ∨ st = 504 then true
        else if 400 ≤ st ∧ st < 500 then false
        else true
    | none =>
        let errorMessage := toLowerChars ((e.message.getD ("")))
        if strIncludes errorMessage ("timeout") ∨
            strIncludes errorMessage ("connection") ∨
            strIncludes errorMessage ("network") ∨
            strIncludes errorMessage ("socket") then
          true
        else true

/-- C4 counterexample: an error carrying HTTP status 200 (present, neither
5xx, nor in {408, 429, 503, 504}, nor a 4xx) is not infrastructure for the
code's classifier, but infrastructure by the claim's reference definition
("any remaining error is infrastructure by default"). -/
theorem c4_counterexample :
    isInfrastructureFailure ⟨none, none, some ⟨some 200, none⟩⟩ = false ∧
    claimedInfrastructureClassification ⟨none, none, some ⟨some 200, none⟩⟩ =
      true :=
  ⟨rfl, rfl⟩

/-- C4's reference definition amended to match the code: when a truthy
(present and nonzero) status exists, the error is infrastructure iff
`status ≥ 500` or `status ∈ {408, 429, 503, 504}` — every other present
status, 4xx or not, is not infrastructure; the code-, message- and default
rules are unchanged. -/
def amendedInfrastructureClassification (e : GatewayError) : Bool :=
  if e.code = some ("ECONNREFUSED") ∨ e.code = some ("ENOTFOUND") ∨
      e.code = some ("ETIMEDOUT") ∨ e.code = some ("ECONNRESET") then
    true
  else
    match truthyStatus e with
    | some st =>
        if 500 ≤ st ∨ st = 408 ∨ st = 429 ∨ st = 503 ∨ st = 504 then true
        else false
    | none =>
        let errorMessage := toLowerChars ((e.message.getD ("")))
        if strIncludes errorMessage ("timeout") ∨
            strIncludes errorMessage ("connection") ∨
            strIncludes errorMessage ("network") ∨
            strIncludes errorMessage ("socket") then
          true
        else true

/-- C4 amended: the code's classifier coincides, on every error value, with
the reference definition whose status rule is total (any truthy status that
is neither ≥ 500 nor in {408, 429, 503, 504} is business-logic). -/
theorem c4_amended_classifier_equals_reference (e : GatewayError) :
    isInfrastructureFailure e = amendedInfrastructureClassification e := by
  unfold isInfrastructureFailure amendedInfrastructureClassification
  split
  · rfl
  · cases htr : truthyStatus e with
    | none => rfl
    | some st =>
        simp only [htr]
        by_cases h5 : 500 ≤ st
        · simp [h5]
        · by_cases hsp : st = 408 ∨ st = 429 ∨ st = 503 ∨ st = 504 <;>
            simp [h5, hsp]

/-- C5 counterexample: a fallback invoked at the half-open call limit (state
HALF_OPEN, `halfOpenCalls = halfOpenMaxCalls = 1`, `nextAttemptTime = 1000`,
now = 2000) carries `retryAfter = -1`: negative, and different from
`max(0, (nextAttemptTime - now)/1000) = 0`. -/
theorem c5_counterexample :
    (process "svc" ⟨5, 50, 10, 1, 10⟩
      ⟨.HALF_OPEN, 0, 0, 5, some 0, some 1000, 1⟩ 2000
      (.returns (some ⟨true, .absent⟩))).result =
      .ok (.fallback (getFallbackResponse "svc"
        ⟨.HALF_OPEN, 0, 0, 5, some 0, some 1000, 1⟩ 2000)) ∧
    (getFallbackResponse "svc"
      ⟨.HALF_OPEN, 0, 0, 5, some 0, some 1000, 1⟩ 2000).retryAfter = -1 ∧
    ¬(0 ≤ (getFallbackResponse "svc"
      ⟨.HALF_OPEN, 0, 0, 5, some 0, some 1000, 1⟩ 2000).retryAfter) ∧
    (getFallbackResponse "svc"
      ⟨.HALF_OPEN, 0, 0, 5, some 0, some 1000, 1⟩ 2000).retryAfter ≠
      max 0 ((((1000 : Int) : ℚ) - ((2000 : Int) : ℚ)) / 1000) := by
  refine ⟨rfl, ?_, ?_, ?_⟩ <;>
    norm_num [getFallbackResponse, nextAttemptOrNow]

/-- C5 amended: every fallback payload carries `serviceName` equal to the
dependency's name and `retryAfter = (nextAttemptTime - now)/1000` without
clamping; for the fallback invocations made while the breaker is OPEN inside
the recovery window this value is nonnegative and agrees with
`max(0, (nextAttemptTime - now)/1000)`, but at the half-open call limit it
can be negative. -/
theorem c5_amended_fallback_payload (cfg : CircuitBreakerOptions)
    (svc : String) (s : BreakerState) (now t : Nat) (tr : TransportOutcome)
    (hopen : s.state = .OPEN) (hnext : s.nextAttemptTime = some t)
    (hlt : now < t) :
    (process svc cfg s now tr).result =
      .ok (.fallback (getFallbackResponse svc s now)) ∧
    (getFallbackResponse svc s now).serviceName = svc ∧
    0 ≤ (getFallbackResponse svc s now).retryAfter ∧
    (getFallbackResponse svc s now).retryAfter =
      max 0 ((((t : Int) : ℚ) - ((now : Int) : ℚ)) / 1000) := by
  have ht0 : t ≠ 0 := by omega
  have hres : shouldAttemptReset s now = false := by
    simp [shouldAttemptReset, hnext]
    omega
  have hno : nextAttemptOrNow s now = t := by
    simp [nextAttemptOrNow, hnext, ht0]
  have hge : 0 ≤ (((t : Int) : ℚ) - ((now : Int) : ℚ)) / 1000 := by
    apply div_nonneg _ (by norm_num)
    rw [sub_nonneg]
    exact_mod_cast le_of_lt hlt
  refine ⟨?_, rfl, ?_, ?_⟩
  · simp [process, execute, hopen, hres]
  · simpa [getFallbackResponse, hno] using hge
  · rw [max_eq_right hge]
    simp [getFallbackResponse, hno]

/-- Witness for C5 (amended) at a concrete input: an OPEN breaker with
`nextAttemptTime = 10` called at time 5 produces a fallback whose
`serviceName` is the dependency name. -/
theorem c5_amended_witness :
    (getFallbackResponse "svc" ⟨.OPEN, 1, 0, 3, some 0, some 10, 0⟩ 5).serviceName
      = "svc" :=
  (c5_amended_fallback_payload ⟨5, 50, 10, 3, 10⟩ "svc"
    ⟨.OPEN, 1, 0, 3, some 0, some 10, 0⟩ 5 10
    (.returns (some ⟨true, .absent⟩)) rfl rfl (by decide)).2.1

/-- C9: a transport result carrying neither a defined `data` field nor an
`errors` array makes the wrapped operation raise the invalid-shape error,
that error is classified as an infrastructure failure, and a CLOSED
breaker's failure path runs: `failures` is incremented. -/
theorem c9_invalid_shape_is_infrastructure_failure
    (r : Option GqlResponse) (svc : String) (cfg : CircuitBreakerOptions)
    (s : BreakerState) (now : Nat)
    (hr : isValidGraphQLResponse r = false) (hs : s.state = .CLOSED) :
    processOperation (.returns r) = .error invalidResponseError ∧
    isInfrastructureFailure invalidResponseError = true ∧
    (process svc cfg s now (.returns r)).state.failures = s.failures + 1 := by
  have hinfra : isInfrastructureFailure invalidResponseError = true := rfl
  refine ⟨?_, hinfra, ?_⟩
  · simp [processOperation, hr, classifyCatch, hinfra]
  · simp [process, execute, executeFrom, processOperation, classifyCatch,
      hinfra, hr, hs, onFailure]
    split <;> simp [trip]

/-- Witness for C9 at a concrete input: a null transport body increments a
fresh breaker's failure count to 1. -/
theorem c9_witness :
    (process "svc" ⟨5, 50, 10, 3, 10⟩ initialBreaker 0
      (.returns none)).state.failures = initialBreaker.failures + 1 :=
  (c9_invalid_shape_is_infrastructure_failure none "svc" ⟨5, 50, 10, 3, 10⟩
    initialBreaker 0 rfl rfl).2.2

/-- The three shapes a resolved `process` call can take: the transport's own
valid protocol response, an embedded body with a defined `data` field or
truthy `errors`, or the generated SERVICE_UNAVAILABLE fallback payload. -/
def resolvedShape (svc : String) : ProcValue → Prop
  | .response r => isValidGraphQLResponse r = true
  | .embeddedBody b => (b.dataDefined || errorsTruthy b.errors) = true
  | .fallback p => p.serviceName = svc ∧ p.code = "SERVICE_UNAVAILABLE"

/-- A successful value of the wrapped operation is either the valid
transport response or a valid embedded body. -/
lemma processOperation_ok_shape (svc : String) (tr : TransportOutcome)
    (v : ProcValue) (h : processOperation tr = .ok v) : resolvedShape svc v := by
  have hcatch : ∀ e w, classifyCatch e = .ok w → resolvedShape svc w := by
    intro e w hw
    unfold classifyCatch at hw
    split at hw
    · cases hw
    · rcases hbody : embeddedBodyOf e with _ | b
      · rw [hbody] at hw
        cases hw
      · rw [hbody] at hw
        cases hw
        unfold embeddedBodyOf at hbody
        split at hbody
        · split at hbody
          · split at hbody
            · simp only [Option.some.injEq] at hbody
              subst hbody
              assumption
            · cases hbody
          · cases hbody
        · cases hbody
  cases tr with
  | returns r =>
      by_cases hval : isValidGraphQLResponse r = true
      · simp only [processOperation, hval, if_true] at h
        cases h
        exact hval
      · have hfalse : isValidGraphQLResponse r = false := by
          simpa using hval
        rw [show processOperation (.returns r) = classifyCatch invalidResponseError
          from by simp [processOperation, hfalse]] at h
        exact hcatch _ _ h
  | throws e => exact hcatch _ _ h

/-- C10: `process` never rejects: whatever the transport does (returns any
value or throws any error) and whatever state the breaker is in, the call
resolves, and its value is the transport's valid protocol response, an
embedded body extracted from a business-logic error, or the generated
SERVICE_UNAVAILABLE fallback payload. -/
theorem c10_process_always_resolves (svc : String)
    (cfg : CircuitBreakerOptions) (s : BreakerState) (now : Nat)
    (tr : TransportOutcome) :
    ∃ v, (process svc cfg s now tr).result = .ok v ∧ resolvedShape svc v := by
  have hfb : ∀ st n, resolvedShape svc
      (.fallback (getFallbackResponse svc st n)) := by
    intro st n
    exact ⟨rfl, rfl⟩
  unfold process execute executeFrom
  split
  · split
    · split
      · exact ⟨_, rfl, hfb _ _⟩
      · rcases hop : processOperation tr with e | v
        · simp only [hop]
          exact ⟨_, rfl, hfb _ _⟩
        · simp only [hop]
          exact ⟨v, rfl, processOperation_ok_shape svc tr v hop⟩
    · exact ⟨_, rfl, hfb _ _⟩
  · split
    · exact ⟨_, rfl, hfb _ _⟩
    · rcases hop : processOperation tr with e | v
      · simp only [hop]
        exact ⟨_, rfl, hfb _ _⟩
      · simp only [hop]
        exact ⟨v, rfl, processOperation_ok_shape svc tr v hop⟩
